import Mathlib

/-!
Shallow embedding of the octogram energy bot (`src/bot.js`).

The bot queries the Octopus Energy HTTP/GraphQL API and formats the results
into a status report.  The embedding models each outbound call by the
response the provider would give, collected in an `Env` record; a network
or HTTP failure is an `Except.error`.  JavaScript numbers are modelled as
exact rationals (`ℚ`); the one place where `NaN` can arise
(`Number(undefined)` in `getLiveUsage`) is modelled explicitly by `JsNum`.
`Number.prototype.toFixed` is modelled by `formatFixed` (digit string) and
`roundFix` (the exact decimal value it denotes); `toFixed` rounds the exact
value half away from zero at the chosen precision, which for the
non-negative quantities of this program is the usual half-up rounding.
-/

namespace Octogram

/-- A JavaScript field value that may be `null`, `undefined` (absent), or a
number.  Used for the `demand` field of a telemetry reading. -/
inductive JsVal where
  | null : JsVal
  | undef : JsVal
  | num : ℚ → JsVal
deriving DecidableEq

/-- A JavaScript number: either `NaN` or an exact rational. -/
inductive JsNum where
  | nan : JsNum
  | num : ℚ → JsNum
deriving DecidableEq

/-- The JS `Number(x)` coercion on the values of `JsVal`:
`Number(null) = 0`, `Number(undefined) = NaN`. -/
def jsNumber : JsVal → JsNum
  | .null => .num 0
  | .undef => .nan
  | .num q => .num q

/-- Exact value denoted by `x.toFixed(n)` in JS: round `x` to `n` decimal
places, ties away from zero (for non-negative `x`, half-up). -/
def roundFix (q : ℚ) (n : ℕ) : ℚ :=
  ((⌊q * (10 : ℚ) ^ n + 1 / 2⌋ : ℤ) : ℚ) / (10 : ℚ) ^ n

/-- Digit string produced by `x.toFixed(n)` in JS (for a non-`NaN` value). -/
def formatFixed (q : ℚ) (n : ℕ) : String :=
  let m : ℤ := ⌊q * (10 : ℚ) ^ n + 1 / 2⌋
  let sgn : String := if m < 0 then "-" else ""
  let a : ℕ := m.natAbs
  if n = 0 then sgn ++ toString a
  else sgn ++ toString (a / 10 ^ n) ++ "." ++ (toString (10 ^ n + a % 10 ^ n)).drop 1

/-- `x.toFixed(n)` on a JS number, including the `NaN` case. -/
def jsToFixed (x : JsNum) (n : ℕ) : String :=
  match x with
  | .nan => "NaN"
  | .num q => formatFixed q n

/-- Two-digit zero padding, as in moment's `MM`, `DD`, `HH`, `mm`, `ss`. -/
def pad2 (n : ℕ) : String :=
  if n < 10 then "0" ++ toString n else toString n

/-- Four-digit zero padding, as in moment's `YYYY`. -/
def pad4 (n : ℕ) : String :=
  if n < 10 then "000" ++ toString n
  else if n < 100 then "00" ++ toString n
  else if n < 1000 then "0" ++ toString n
  else toString n

/-- A UTC wall-clock instant, the part of `moment().utc()` the bot prints. -/
structure UtcTime where
  year : ℕ
  month : ℕ
  day : ℕ
  hour : ℕ
  minute : ℕ
  second : ℕ
deriving DecidableEq

/-- `formatTimestamp` from `src/bot.js`:
`moment().utc().format("YYYY-MM-DD HH:mm:ss UTC")`. -/
def formatTimestamp (t : UtcTime) : String :=
  pad4 t.year ++ "-" ++ pad2 t.month ++ "-" ++ pad2 t.day ++ " " ++
    pad2 t.hour ++ ":" ++ pad2 t.minute ++ ":" ++ pad2 t.second ++ " UTC"

/-- `formatUsageData` from `src/bot.js`: a two-line usage/cost label with
kWh and pounds both to 2 decimals. -/
def formatUsageData (usage cost : ℚ) : String :=
  "Usage: " ++ formatFixed usage 2 ++ " kWh\nCost: £" ++ formatFixed cost 2

/-- Response of the `obtainKrakenToken` GraphQL mutation. -/
structure TokenData where
  token : String
  refreshToken : String
  refreshExpiresIn : ℚ
deriving DecidableEq

/-- One smart device of a meter, GraphQL shape. -/
structure SmartDevice where
  deviceId : String
deriving DecidableEq

/-- One meter of a meter point, GraphQL shape. -/
structure GqlMeter where
  smartDevices : List SmartDevice
deriving DecidableEq

/-- Meter point of an electricity agreement, GraphQL shape. -/
structure GqlMeterPoint where
  meters : List GqlMeter
deriving DecidableEq

/-- One active electricity agreement, GraphQL shape. -/
structure GqlAgreement where
  meterPoint : GqlMeterPoint
deriving DecidableEq

/-- Response of the account query used by `getMeterGuid`. -/
structure GqlAccount where
  electricityAgreements : List GqlAgreement
deriving DecidableEq

/-- One `smartMeterTelemetry` reading.  `demand` is nullable (and, in an
object, could also be absent, i.e. `undefined`). -/
structure Telemetry where
  readAt : String
  demand : JsVal
  consumption : JsVal
deriving DecidableEq

/-- One tariff agreement on an electricity meter point, REST shape.
`valid_to` is a date string or `null`; the code only uses it through
`new Date(valid_to)`, so it is modelled by its timestamp, with `null`
modelled as `none`. -/
structure Agreement where
  tariff_code : String
  valid_to : Option ℤ
deriving DecidableEq

/-- One electricity meter point of a property, REST shape. -/
structure ElectricityMeterPoint where
  mpan : String
  agreements : List Agreement
deriving DecidableEq

/-- One property of an account, REST shape. -/
structure Property where
  electricity_meter_points : List ElectricityMeterPoint
deriving DecidableEq

/-- Response of `GET /accounts/{accountNumber}/`. -/
structure AccountData where
  properties : List Property
deriving DecidableEq

/-- The `direct_debit_monthly` branch of a regional tariff, in pence. -/
structure PaymentDetails where
  standard_unit_rate_inc_vat : ℚ
  standing_charge_inc_vat : ℚ
deriving DecidableEq

/-- One regional entry of `single_register_electricity_tariffs`. -/
structure RegionTariff where
  direct_debit_monthly : PaymentDetails
deriving DecidableEq

/-- Response of `GET /products/{productCode}/`.  The
`single_register_electricity_tariffs` JS object, keyed by `_<region>`, is
modelled as an association list. -/
structure ProductData where
  display_name : String
  single_register_electricity_tariffs : List (String × RegionTariff)
deriving DecidableEq

/-- One interval record of a consumption response. -/
structure ConsumptionReading where
  consumption : ℚ
deriving DecidableEq

/-- Response of the consumption endpoint. -/
structure ConsumptionData where
  results : List ConsumptionReading
deriving DecidableEq

/-- The `{ usage, cost }` record returned by `getYesterdayUsage` and
`getMonthlyUsage`. -/
structure UsageCost where
  usage : ℚ
  cost : ℚ
deriving DecidableEq

/-- An error thrown by the JS code: a propagated network/HTTP failure, an
explicit `throw new Error(msg)`, or a `TypeError` from dereferencing
`null`/`undefined`. -/
inductive JsErr where
  | netFail : JsErr
  | thrown : String → JsErr
  | typeError : JsErr
deriving DecidableEq

/-- The environment of one bot request: the configured MPAN and the
response each outbound call would receive (an `Except.error` models a
network/HTTP failure of that call).  The product fetch is keyed by the
requested product code. -/
structure Env where
  mpan : String
  krakenTokenResp : Except JsErr TokenData
  gqlAccountResp : Except JsErr GqlAccount
  telemetryResp : Except JsErr (List Telemetry)
  accountResp : Except JsErr AccountData
  productResp : String → Except JsErr ProductData
  consumptionYesterdayResp : Except JsErr ConsumptionData
  consumptionMonthlyResp : Except JsErr ConsumptionData
  now : UtcTime

/-- `getKrakenToken` from `src/bot.js`: returns the token of the mutation
response, rethrowing any failure. -/
def getKrakenToken (resp : Except JsErr TokenData) : Except JsErr String :=
  match resp with
  | .error e => .error e
  | .ok r => .ok r.token

/-- `getMeterGuid` from `src/bot.js`: first device of the first meter of
the first active agreement; throws if any list in the chain is empty. -/
def getMeterGuid (resp : Except JsErr GqlAccount) : Except JsErr String :=
  match resp with
  | .error e => .error e
  | .ok r =>
    match r.electricityAgreements with
    | [] => .error (.thrown "No active electricity agreements found")
    | agreement0 :: _ =>
      match agreement0.meterPoint.meters with
      | [] => .error (.thrown "No active meters found")
      | meter0 :: _ =>
        match meter0.smartDevices with
        | [] => .error (.thrown "No smart devices found")
        | device0 :: _ => .ok device0.deviceId

/-- The `try` block of `getLiveUsage` from `src/bot.js`: token, then meter
GUID, then first telemetry reading; a `null` demand yields `0`, otherwise
the result is `Number(demand)`. -/
def getLiveUsageAttempt (env : Env) : Except JsErr JsNum :=
  match getKrakenToken env.krakenTokenResp with
  | .error e => .error e
  | .ok _token =>
    match getMeterGuid env.gqlAccountResp with
    | .error e => .error e
    | .ok _meterGuid =>
      match env.telemetryResp with
      | .error e => .error e
      | .ok readings =>
        match readings with
        | [] => .error (.thrown "No telemetry data available")
        | telemetry :: _ =>
          if telemetry.demand = JsVal.null then .ok (.num 0)
          else .ok (jsNumber telemetry.demand)

/-- `getLiveUsage` from `src/bot.js`: the `catch` branch maps every error
of the attempt to the number `0`. -/
def getLiveUsage (env : Env) : JsNum :=
  match getLiveUsageAttempt env with
  | .error _ => .num 0
  | .ok v => v

/-- Comparison key of `new Date(valid_to)`: a `null` date coerces to the
epoch (`new Date(null).valueOf() = 0`). -/
def dateKey : Option ℤ → ℤ
  | none => 0
  | some t => t

/-- The `reduce` of `src/bot.js` line 188 selecting the current agreement:
starting from `null`, replace the accumulator whenever the current
agreement's `valid_to` date is strictly later. -/
def reduceAgreements (agreements : List Agreement) : Option Agreement :=
  agreements.foldl
    (fun latest current =>
      match latest with
      | none => some current
      | some la =>
        if dateKey current.valid_to > dateKey la.valid_to then some current
        else some la)
    none

/-- JS `String.prototype.split` with a one-character separator, on the
character list of the string. -/
def splitChar (c : Char) : List Char → List (List Char)
  | [] => [[]]
  | x :: xs =>
    let r := splitChar c xs
    if x = c then [] :: r
    else
      match r with
      | [] => [[x]]
      | seg :: segs => (x :: seg) :: segs

/-- `tariffCode.split("-")` as a list of strings. -/
def tariffParts (code : String) : List String :=
  (splitChar '-' code.toList).map (fun seg => String.mk seg)

/-- JS `Array.prototype.slice(s, e)` with possibly negative indices:
negative indices count from the end, and both are clamped to the array. -/
def jsSlice {α : Type} (l : List α) (s e : ℤ) : List α :=
  let len : ℤ := l.length
  let s' : ℤ := if s < 0 then (if len + s < 0 then 0 else len + s) else (if s ≤ len then s else len)
  let e' : ℤ := if e < 0 then (if len + e < 0 then 0 else len + e) else (if e ≤ len then e else len)
  (l.drop s'.toNat).take (e' - s').toNat

/-- `src/bot.js` line 199: `tariffParts.slice(2, -1).join("-")`. -/
def parseProductCode (code : String) : String :=
  String.intercalate "-" (jsSlice (tariffParts code) 2 (-1))

/-- `src/bot.js` line 200: `tariffParts[tariffParts.length - 1]`. -/
def parseRegionLetter (code : String) : String :=
  (tariffParts code).getD ((tariffParts code).length - 1) ""

/-- Indexing a JS object by a dynamic key, modelled on an association
list: `tariffs[key]`, `undefined` when the key is absent. -/
def lookupKey {α : Type} (tbl : List (String × α)) (key : String) : Option α :=
  (tbl.find? (fun entry => entry.1 == key)).map (fun entry => entry.2)

/-- The record returned by `getTariffInfo`.  In JS, `unit_rate` and
`standing_charge` are the digit strings `(pence/100).toFixed(4)` and
`(pence/100).toFixed(2)`; the report prints those strings and the cost
computation reads `unit_rate` back with `parseFloat`.  The embedding
stores the exact decimal values the strings denote (`roundFix`); the
printed strings are recovered with `formatFixed`. -/
structure TariffInfo where
  name : String
  unit_rate : ℚ
  standing_charge : ℚ
deriving DecidableEq

/-- `getTariffInfo` from `src/bot.js`: find the property holding the
configured MPAN, select the current agreement (latest `valid_to`), parse
the tariff code, fetch the product and index its tariff table by region.
A missing property is an explicit `throw new Error(...)`; an empty
agreements list or a missing region entry surfaces as a `TypeError`
(dereferencing `null`/`undefined`). -/
def getTariffInfo (env : Env) : Except JsErr TariffInfo :=
  match env.accountResp with
  | .error e => .error e
  | .ok accountRes =>
    match accountRes.properties.find?
        (fun p => p.electricity_meter_points.any (fun ep => ep.mpan == env.mpan)) with
    | none => .error (.thrown ("MPAN " ++ env.mpan ++ " not found in any property"))
    | some propertyWithMpan =>
      match propertyWithMpan.electricity_meter_points.find?
          (fun ep => ep.mpan == env.mpan) with
      | none => .error .typeError
      | some mpanPoint =>
        match reduceAgreements mpanPoint.agreements with
        | none => .error .typeError
        | some currentAgreement =>
          match env.productResp (parseProductCode currentAgreement.tariff_code) with
          | .error e => .error e
          | .ok productRes =>
            match lookupKey productRes.single_register_electricity_tariffs
                ("_" ++ parseRegionLetter currentAgreement.tariff_code) with
            | none => .error .typeError
            | some regionTariff =>
              .ok { name := productRes.display_name
                    unit_rate :=
                      roundFix (regionTariff.direct_debit_monthly.standard_unit_rate_inc_vat / 100) 4
                    standing_charge :=
                      roundFix (regionTariff.direct_debit_monthly.standing_charge_inc_vat / 100) 2 }

/-- The `reduce` of `src/bot.js` lines 242 and 274 summing the
`consumption` field of the interval records. -/
def sumConsumption (results : List ConsumptionReading) : ℚ :=
  results.foldl (fun acc reading => acc + reading.consumption) 0

/-- `getYesterdayUsage` from `src/bot.js`: sum yesterday's interval
records and price them at the resolved unit rate
(`totalUsage * parseFloat(tariff.unit_rate)`). -/
def getYesterdayUsage (env : Env) : Except JsErr UsageCost :=
  match env.consumptionYesterdayResp with
  | .error e => .error e
  | .ok response =>
    match getTariffInfo env with
    | .error e => .error e
    | .ok tariff =>
      .ok { usage := sumConsumption response.results
            cost := sumConsumption response.results * tariff.unit_rate }

/-- `getMonthlyUsage` from `src/bot.js`: as `getYesterdayUsage`, over the
rolling 30-day window's records. -/
def getMonthlyUsage (env : Env) : Except JsErr UsageCost :=
  match env.consumptionMonthlyResp with
  | .error e => .error e
  | .ok response =>
    match getTariffInfo env with
    | .error e => .error e
    | .ok tariff =>
      .ok { usage := sumConsumption response.results
            cost := sumConsumption response.results * tariff.unit_rate }

/-- `generateStatusMessage` from `src/bot.js`.  The source awaits
`getLiveUsage` first (it cannot fail; it is referenced in the success
branch here), then the three fallible calls; any rejection lands in the
`catch`, which returns the fixed error string. -/
def generateStatusMessage (env : Env) : String :=
  match getYesterdayUsage env, getMonthlyUsage env, getTariffInfo env with
  | .ok yesterday, .ok monthly, .ok tariff =>
    "🔌 *Octopus Energy Status*\n\n" ++
      "*Current Usage:* " ++ jsToFixed (getLiveUsage env) 0 ++ "W\n\n" ++
      "*Yesterday's Usage:*\n" ++ formatUsageData yesterday.usage yesterday.cost ++ "\n\n" ++
      "*Last 30 Days:*\n" ++ formatUsageData monthly.usage monthly.cost ++ "\n\n" ++
      "*Tariff Information:*\n" ++
      "Name: " ++ tariff.name ++ "\n" ++
      "Unit Rate: £" ++ formatFixed tariff.unit_rate 4 ++ "/kWh\n" ++
      "Standing Charge: £" ++ formatFixed tariff.standing_charge 2 ++ "/day\n\n" ++
      "Last Updated: " ++ formatTimestamp env.now
  | _, _, _ => "❌ Error fetching data. Please try again later."

/-! Concrete environments used by the witness theorems.  `baseEnv` is a
fully successful provider, mirroring the spec's end-to-end scenario:
demand 350 W, yesterday 8.2 kWh, 30 days 210.5 kWh, tariff
"Flexible Octopus" at 27.12 p/kWh with a 48.65 p/day standing charge. -/

/-- A one-device GraphQL account response. -/
def gqlAccountBase : GqlAccount := ⟨[⟨⟨[⟨[⟨"dev-1"⟩]⟩]⟩⟩]⟩

/-- REST account response: one property holding the configured MPAN with a
single agreement for tariff code `E-1R-VAR-22-11-01-A`. -/
def accountBase : AccountData :=
  ⟨[⟨[⟨"1200023305123", [⟨"E-1R-VAR-22-11-01-A", some 1700000000⟩]⟩]⟩]⟩

/-- Product response for `VAR-22-11-01` with a `_A` region entry. -/
def productBase : ProductData :=
  ⟨"Flexible Octopus", [("_A", ⟨⟨2712 / 100, 4865 / 100⟩⟩)]⟩

/-- Yesterday's interval records: 4.1 + 4.1 = 8.2 kWh. -/
def consumpYBase : List ConsumptionReading := [⟨41 / 10⟩, ⟨41 / 10⟩]

/-- The 30-day interval records: 210.5 kWh. -/
def consumpMBase : List ConsumptionReading := [⟨2105 / 10⟩]

/-- A fully successful environment. -/
def baseEnv : Env where
  mpan := "1200023305123"
  krakenTokenResp := .ok ⟨"tok", "refresh", 3600⟩
  gqlAccountResp := .ok gqlAccountBase
  telemetryResp := .ok [⟨"2026-10-12T00:00:00Z", .num 350, .num 5⟩]
  accountResp := .ok accountBase
  productResp := fun code =>
    if code == "VAR-22-11-01" then .ok productBase else .error .netFail
  consumptionYesterdayResp := .ok ⟨consumpYBase⟩
  consumptionMonthlyResp := .ok ⟨consumpMBase⟩
  now := ⟨2026, 10, 12, 0, 0, 0⟩

/-- The tariff record `getTariffInfo` produces on `baseEnv`. -/
def tariffBase : TariffInfo :=
  ⟨"Flexible Octopus", roundFix (2712 / 100 / 100) 4, roundFix (4865 / 100 / 100) 2⟩

/-- The usage/cost record of `getYesterdayUsage` on `baseEnv`. -/
def usageYBase : UsageCost :=
  ⟨sumConsumption consumpYBase, sumConsumption consumpYBase * tariffBase.unit_rate⟩

/-- The usage/cost record of `getMonthlyUsage` on `baseEnv`. -/
def usageMBase : UsageCost :=
  ⟨sumConsumption consumpMBase, sumConsumption consumpMBase * tariffBase.unit_rate⟩

/-- Environment in which no property's meter points contain the MPAN. -/
def envNoMpan : Env :=
  { baseEnv with accountResp := .ok ⟨[⟨[⟨"9999999999999", [⟨"E-1R-VAR-22-11-01-A", some 1⟩]⟩]⟩]⟩ }

/-- Environment in which the matching meter point has no agreements. -/
def envNoAgreements : Env :=
  { baseEnv with accountResp := .ok ⟨[⟨[⟨"1200023305123", []⟩]⟩]⟩ }

/-- Environment in which the product's tariff table lacks region `A`. -/
def envNoRegion : Env :=
  { baseEnv with
    productResp := fun code =>
      if code == "VAR-22-11-01"
      then .ok ⟨"Flexible Octopus", [("_Z", ⟨⟨2712 / 100, 4865 / 100⟩⟩)]⟩
      else .error .netFail }

/-- Environment in which obtaining the Kraken token fails. -/
def envTokenFail : Env :=
  { baseEnv with krakenTokenResp := .error .netFail }

/-- Environment in which the account REST fetch fails. -/
def envAccountFail : Env :=
  { baseEnv with accountResp := .error .netFail }

/-- Environment whose only telemetry reading has a `null` demand. -/
def envNullDemand : Env :=
  { baseEnv with telemetryResp := .ok [⟨"2026-10-12T00:00:00Z", .null, .num 5⟩] }

/-- Environment whose only telemetry reading has no demand field
(`undefined`). -/
def envUndefDemand : Env :=
  { baseEnv with telemetryResp := .ok [⟨"2026-10-12T00:00:00Z", .undef, .num 5⟩] }

/-! Helper lemmas. -/

/-- The `reduce` of line 188 is `List.argmax` on the date key: it keeps
the accumulator unless the current element's key is strictly greater. -/
lemma foldl_step_eq (l : List Agreement) :
    ∀ o : Option Agreement,
      l.foldl
        (fun latest current =>
          match latest with
          | none => some current
          | some la =>
            if dateKey current.valid_to > dateKey la.valid_to then some current
            else some la) o
      = l.foldl (List.argAux fun b c => dateKey c.valid_to < dateKey b.valid_to) o := by
  induction l with
  | nil => intro o; rfl
  | cons hd tl ih =>
    intro o
    rw [List.foldl_cons, List.foldl_cons, ih]
    congr 1
    cases o <;> rfl

lemma reduceAgreements_eq_argmax (l : List Agreement) :
    reduceAgreements l = l.argmax (fun a => dateKey a.valid_to) := by
  unfold reduceAgreements List.argmax
  exact foldl_step_eq l none

lemma floor_intCast_add_half (m : ℤ) : ⌊((m : ℚ) + 1 / 2)⌋ = m := by
  rw [add_comm, Int.floor_add_int]
  norm_num

lemma roundFix_idem (q : ℚ) (n : ℕ) : roundFix (roundFix q n) n = roundFix q n := by
  unfold roundFix
  rw [div_mul_cancel₀ _ (by positivity : ((10 : ℚ) ^ n) ≠ 0), floor_intCast_add_half]

lemma foldl_add_eq (l : List ConsumptionReading) :
    ∀ a : ℚ,
      l.foldl (fun acc reading => acc + reading.consumption) a
        = a + (l.map (fun r => r.consumption)).sum := by
  induction l with
  | nil => intro a; simp
  | cons hd tl ih =>
    intro a
    rw [List.foldl_cons, ih]
    simp [add_assoc]

lemma jsSlice_two_negOne {α : Type} (l : List α) :
    jsSlice l 2 (-1) = (l.drop 2).dropLast := by
  unfold jsSlice
  simp only [show ¬((2 : ℤ) < 0) by norm_num, if_false, show ((-1 : ℤ) < 0) by norm_num,
    if_true]
  rcases le_or_lt 2 (l.length : ℤ) with h2 | h2
  · rw [if_pos h2, if_neg (by omega : ¬((l.length : ℤ) + -1 < 0))]
    rw [List.dropLast_eq_take, List.length_drop]
    have hs : ((2 : ℤ)).toNat = 2 := rfl
    rw [hs]
    congr 1
    omega
  · rw [if_neg (by omega : ¬((2 : ℤ) ≤ (l.length : ℤ)))]
    have hs : ((l.length : ℤ)).toNat = l.length := Int.toNat_natCast _
    rw [hs, List.drop_length, List.take_nil]
    have hd : l.drop 2 = [] := List.drop_eq_nil_of_le (by omega)
    rw [hd]
    rfl

lemma getD_last_eq (l : List String) : l.getD (l.length - 1) "" = l.getLastD "" := by
  induction l with
  | nil => rfl
  | cons x xs ih =>
    cases xs with
    | nil => rfl
    | cons y ys =>
      rw [List.getLastD_cons]
      simp only [List.length_cons] at ih ⊢
      rw [show ys.length + 1 + 1 - 1 = ys.length + 1 from by omega, List.getD_cons_succ]
      rw [show ys.length + 1 - 1 = ys.length from by omega] at ih
      exact ih

/-! Claim theorems. -/

/-- C1.  For every non-empty list of tariff agreements, the selection
`reduce` of `getTariffInfo` returns an agreement of the list whose
`valid_to` date key is maximal, and on ties the agreement encountered
first in input order. -/
theorem currentAgreement_latest_validTo (l : List Agreement) (h : l ≠ []) :
    ∃ a, reduceAgreements l = some a ∧ a ∈ l ∧
      (∀ b ∈ l, dateKey b.valid_to ≤ dateKey a.valid_to) ∧
      (∀ b ∈ l, dateKey b.valid_to = dateKey a.valid_to → l.indexOf a ≤ l.indexOf b) := by
  rw [reduceAgreements_eq_argmax]
  cases ha : l.argmax (fun ag => dateKey ag.valid_to) with
  | none => exact absurd (List.argmax_eq_none.mp ha) h
  | some a =>
    have ham : a ∈ l.argmax (fun ag => dateKey ag.valid_to) := Option.mem_def.mpr ha
    exact ⟨a, rfl, List.argmax_mem ham,
      fun b hb => List.le_of_mem_argmax (f := fun ag => dateKey ag.valid_to) hb ham,
      fun b hb heq =>
        List.index_of_argmax (f := fun ag => dateKey ag.valid_to) ham hb (le_of_eq heq.symm)⟩

/-- Witness for C1: a two-element tie on `valid_to` resolves to the first
agreement of the list. -/
theorem currentAgreement_latest_validTo_witness :
    ([⟨"E-1R-VAR-22-11-01-A", some 100⟩, ⟨"E-1R-OLD-20-01-01-A", some 100⟩] :
        List Agreement) ≠ [] ∧
    ∃ a, reduceAgreements
        [⟨"E-1R-VAR-22-11-01-A", some 100⟩, ⟨"E-1R-OLD-20-01-01-A", some 100⟩] = some a ∧
      a ∈ [(⟨"E-1R-VAR-22-11-01-A", some 100⟩ : Agreement), ⟨"E-1R-OLD-20-01-01-A", some 100⟩] ∧
      (∀ b ∈ [(⟨"E-1R-VAR-22-11-01-A", some 100⟩ : Agreement), ⟨"E-1R-OLD-20-01-01-A", some 100⟩],
        dateKey b.valid_to ≤ dateKey a.valid_to) ∧
      (∀ b ∈ [(⟨"E-1R-VAR-22-11-01-A", some 100⟩ : Agreement), ⟨"E-1R-OLD-20-01-01-A", some 100⟩],
        dateKey b.valid_to = dateKey a.valid_to →
          [(⟨"E-1R-VAR-22-11-01-A", some 100⟩ : Agreement),
            ⟨"E-1R-OLD-20-01-01-A", some 100⟩].indexOf a ≤
          [(⟨"E-1R-VAR-22-11-01-A", some 100⟩ : Agreement),
            ⟨"E-1R-OLD-20-01-01-A", some 100⟩].indexOf b) :=
  ⟨by simp, currentAgreement_latest_validTo _ (by simp)⟩

/-- C10.  A `null` `valid_to` compares as the epoch (`dateKey none = 0`),
so when the list holds both an open-ended agreement and one with a
post-epoch `valid_to`, the open-ended agreement is never selected. -/
theorem null_validTo_never_selected (l : List Agreement) (a b : Agreement) (t : ℤ)
    (ha : a ∈ l) (hva : a.valid_to = none) (hb : b ∈ l) (hvb : b.valid_to = some t)
    (ht : 0 < t) :
    dateKey none = 0 ∧ ∀ c, reduceAgreements l = some c → c.valid_to ≠ none := by
  refine ⟨rfl, fun c hc hvc => ?_⟩
  rw [reduceAgreements_eq_argmax] at hc
  have hle := List.le_of_mem_argmax hb (Option.mem_def.mpr hc)
  rw [hvb, hvc] at hle
  simp only [dateKey] at hle
  omega

/-- Witness for C10 at a concrete two-element list. -/
theorem null_validTo_never_selected_witness :
    dateKey none = 0 ∧
    ∀ c, reduceAgreements
        [⟨"E-1R-VAR-22-11-01-A", none⟩, ⟨"E-1R-OLD-20-01-01-A", some 5⟩] = some c →
      c.valid_to ≠ none :=
  null_validTo_never_selected _ ⟨"E-1R-VAR-22-11-01-A", none⟩ ⟨"E-1R-OLD-20-01-01-A", some 5⟩
    5 (by simp) rfl (by simp) rfl (by norm_num)

/-- C5.  Tariff-code parsing: the code is split on `"-"`; the product code
is the segments with the first two and the last dropped, rejoined with
`"-"`; the region letter is the last segment; concretely,
`E-1R-VAR-22-11-01-A` parses to `VAR-22-11-01` and `A`. -/
theorem tariffCode_parsing (code : String) :
    parseProductCode code = String.intercalate "-" (((tariffParts code).drop 2).dropLast) ∧
    parseRegionLetter code = (tariffParts code).getLastD "" ∧
    parseProductCode "E-1R-VAR-22-11-01-A" = "VAR-22-11-01" ∧
    parseRegionLetter "E-1R-VAR-22-11-01-A" = "A" := by
  refine ⟨?_, ?_, by rfl, by rfl⟩
  · unfold parseProductCode
    rw [jsSlice_two_negOne]
  · unfold parseRegionLetter
    exact getD_last_eq _

/-- C8.  The interval-consumption summation of `getYesterdayUsage` and
`getMonthlyUsage` is order-independent for non-negative readings, and the
empty list sums to 0. -/
theorem sumConsumption_perm_invariant (l l' : List ConsumptionReading)
    (hp : l.Perm l') (hnn : ∀ r ∈ l, 0 ≤ r.consumption) :
    sumConsumption l = sumConsumption l' ∧ sumConsumption [] = 0 := by
  refine ⟨?_, rfl⟩
  unfold sumConsumption
  rw [foldl_add_eq, foldl_add_eq]
  rw [List.Perm.sum_eq (hp.map (fun r => r.consumption))]

/-- C2.  `getTariffInfo` fails (yields an `Except.error`, never a partial
result) whenever (a) no property's meter points contain the configured
MPAN, (b) the matching meter point's agreements list is empty, or (c) the
fetched product's tariff table has no entry for the parsed region letter. -/
theorem getTariffInfo_fails_on_missing_records (env : Env) :
    (∀ acc, env.accountResp = .ok acc →
      acc.properties.find?
          (fun p => p.electricity_meter_points.any (fun ep => ep.mpan == env.mpan)) = none →
      ∃ e, getTariffInfo env = .error e) ∧
    (∀ acc prop pt, env.accountResp = .ok acc →
      acc.properties.find?
          (fun p => p.electricity_meter_points.any (fun ep => ep.mpan == env.mpan)) =
        some prop →
      prop.electricity_meter_points.find? (fun ep => ep.mpan == env.mpan) = some pt →
      pt.agreements = [] →
      ∃ e, getTariffInfo env = .error e) ∧
    (∀ acc prop pt ag pd, env.accountResp = .ok acc →
      acc.properties.find?
          (fun p => p.electricity_meter_points.any (fun ep => ep.mpan == env.mpan)) =
        some prop →
      prop.electricity_meter_points.find? (fun ep => ep.mpan == env.mpan) = some pt →
      reduceAgreements pt.agreements = some ag →
      env.productResp (parseProductCode ag.tariff_code) = .ok pd →
      lookupKey pd.single_register_electricity_tariffs
          ("_" ++ parseRegionLetter ag.tariff_code) = none →
      ∃ e, getTariffInfo env = .error e) := by
  refine ⟨?_, ?_, ?_⟩
  · intro acc h1 h2
    exact ⟨.thrown ("MPAN " ++ env.mpan ++ " not found in any property"),
      by simp only [getTariffInfo, h1, h2]⟩
  · intro acc prop pt h1 h2 h3 h4
    refine ⟨.typeError, ?_⟩
    have h5 : reduceAgreements pt.agreements = none := by rw [h4]; rfl
    simp only [getTariffInfo, h1, h2, h3, h5]
  · intro acc prop pt ag pd h1 h2 h3 h4 h5 h6
    exact ⟨.typeError, by simp only [getTariffInfo, h1, h2, h3, h4, h5, h6]⟩

/-- Witness for C2: each of the three missing-record situations at a
concrete environment. -/
theorem getTariffInfo_fails_on_missing_records_witness :
    (∃ e, getTariffInfo envNoMpan = .error e) ∧
    (∃ e, getTariffInfo envNoAgreements = .error e) ∧
    (∃ e, getTariffInfo envNoRegion = .error e) :=
  ⟨(getTariffInfo_fails_on_missing_records envNoMpan).1 _ rfl rfl,
    (getTariffInfo_fails_on_missing_records envNoAgreements).2.1 _ _ _ rfl rfl rfl rfl,
    (getTariffInfo_fails_on_missing_records envNoRegion).2.2 _ _ _ _ _ rfl rfl rfl rfl rfl
      rfl⟩

/-- C3.  Every failure inside the `try` block of `getLiveUsage` (auth,
device lookup, telemetry fetch, or an explicitly thrown error) is caught
and mapped to the numeric result `0`; the wrapper never fails outward. -/
theorem getLiveUsage_swallows_errors (env : Env) (e : JsErr)
    (h : getLiveUsageAttempt env = .error e) :
    getLiveUsage env = .num 0 := by
  unfold getLiveUsage
  rw [h]

/-- Witness for C3: a failed token acquisition yields live usage `0`. -/
theorem getLiveUsage_swallows_errors_witness :
    getLiveUsageAttempt envTokenFail = .error .netFail ∧
    getLiveUsage envTokenFail = .num 0 :=
  ⟨rfl, getLiveUsage_swallows_errors envTokenFail .netFail rfl⟩

/-- C4.  Whenever tariff resolution or either consumption aggregation
fails, `generateStatusMessage` returns exactly the fixed error string
instead of raising. -/
theorem generateStatusMessage_error_string (env : Env)
    (h : (∃ e, getYesterdayUsage env = .error e) ∨
      (∃ e, getMonthlyUsage env = .error e) ∨ (∃ e, getTariffInfo env = .error e)) :
    generateStatusMessage env = "❌ Error fetching data. Please try again later." := by
  unfold generateStatusMessage
  rcases h with ⟨e, he⟩ | ⟨e, he⟩ | ⟨e, he⟩
  · rw [he]
  · cases hy : getYesterdayUsage env with
    | error e' => rfl
    | ok y => rw [he]
  · cases hy : getYesterdayUsage env with
    | error e' => rfl
    | ok y =>
      cases hm : getMonthlyUsage env with
      | error e' => rfl
      | ok m => rw [he]

/-- Witness for C4: a failed account fetch produces the error string. -/
theorem generateStatusMessage_error_string_witness :
    getTariffInfo envAccountFail = .error .netFail ∧
    generateStatusMessage envAccountFail = "❌ Error fetching data. Please try again later." :=
  ⟨rfl, generateStatusMessage_error_string envAccountFail (.inr (.inr ⟨.netFail, rfl⟩))⟩

/-- C6 (counterexample).  A telemetry reading whose `demand` field is
missing (`undefined`) does not yield the number `0`: `demand === null` is
false for `undefined`, so the code returns `Number(undefined) = NaN`. -/
theorem null_demand_zero_counterexample :
    getLiveUsage envUndefDemand = .nan ∧ JsNum.nan ≠ JsNum.num 0 :=
  ⟨rfl, fun h => JsNum.noConfusion h⟩

/-- C6 (amended).  When the fetch chain succeeds and the first telemetry
reading's `demand` is `null`, live usage is the number `0`; when the
`demand` field is missing (`undefined`), live usage is `NaN`. -/
theorem null_demand_zero_amended (env : Env) (td : TokenData) (g : String)
    (t0 : Telemetry) (rest : List Telemetry)
    (h1 : env.krakenTokenResp = .ok td)
    (h2 : getMeterGuid env.gqlAccountResp = .ok g)
    (h3 : env.telemetryResp = .ok (t0 :: rest)) :
    (t0.demand = .null → getLiveUsage env = .num 0) ∧
    (t0.demand = .undef → getLiveUsage env = .nan) := by
  constructor <;> intro hd <;>
    simp [getLiveUsage, getLiveUsageAttempt, getKrakenToken, h1, h2, h3, hd, jsNumber]

/-- Witness for C6 (amended): both demand shapes at concrete
environments. -/
theorem null_demand_zero_amended_witness :
    getLiveUsage envNullDemand = .num 0 ∧ getLiveUsage envUndefDemand = .nan :=
  ⟨(null_demand_zero_amended envNullDemand ⟨"tok", "refresh", 3600⟩ "dev-1"
      ⟨"2026-10-12T00:00:00Z", .null, .num 5⟩ [] rfl rfl rfl).1 rfl,
    (null_demand_zero_amended envUndefDemand ⟨"tok", "refresh", 3600⟩ "dev-1"
      ⟨"2026-10-12T00:00:00Z", .undef, .num 5⟩ [] rfl rfl rfl).2 rfl⟩

/-- Witness for C8: a concrete two-element permutation. -/
theorem sumConsumption_perm_invariant_witness :
    sumConsumption [⟨1⟩, ⟨2⟩] = sumConsumption [⟨2⟩, ⟨1⟩] ∧ sumConsumption [] = 0 :=
  sumConsumption_perm_invariant [⟨1⟩, ⟨2⟩] [⟨2⟩, ⟨1⟩]
    (List.Perm.swap (⟨2⟩ : ConsumptionReading) ⟨1⟩ [])
    (by intro r hr; fin_cases hr <;> norm_num)

/-- Inversion: a successful `getTariffInfo` stores a unit rate that is an
exact 4-decimal rounding (`toFixed(4)` read back with `parseFloat`). -/
lemma getTariffInfo_ok_unit_rate (env : Env) (t : TariffInfo)
    (h : getTariffInfo env = .ok t) : ∃ x : ℚ, t.unit_rate = roundFix x 4 := by
  unfold getTariffInfo at h
  split at h
  · cases h
  · split at h
    · cases h
    · split at h
      · cases h
      · split at h
        · cases h
        · split at h
          · cases h
          · split at h
            · cases h
            · simp only [Except.ok.injEq] at h
              subst h
              exact ⟨_, rfl⟩

/-- C7.  In both consumption windows, the cost is exactly the usage times
the resolved unit rate, the rate being the display-precision (4-decimal)
value; the usage hypotheses state it is already in its 2-decimal display
form. -/
theorem cost_eq_usage_times_rate (env : Env) (t : TariffInfo) (wy wm : UsageCost)
    (ht : getTariffInfo env = .ok t)
    (hy : getYesterdayUsage env = .ok wy)
    (hm : getMonthlyUsage env = .ok wm)
    (hu2 : roundFix wy.usage 2 = wy.usage)
    (hu2' : roundFix wm.usage 2 = wm.usage) :
    wy.cost = wy.usage * t.unit_rate ∧ wm.cost = wm.usage * t.unit_rate ∧
      roundFix t.unit_rate 4 = t.unit_rate := by
  refine ⟨?_, ?_, ?_⟩
  · unfold getYesterdayUsage at hy
    split at hy
    · cases hy
    · rw [ht] at hy
      simp only [Except.ok.injEq] at hy
      subst hy
      rfl
  · unfold getMonthlyUsage at hm
    split at hm
    · cases hm
    · rw [ht] at hm
      simp only [Except.ok.injEq] at hm
      subst hm
      rfl
  · obtain ⟨x, hx⟩ := getTariffInfo_ok_unit_rate env t ht
    rw [hx]
    exact roundFix_idem x 4

/-- Witness for C7 on `baseEnv`: usage 8.2 and 210.5 kWh at rate 0.2712. -/
theorem cost_eq_usage_times_rate_witness :
    roundFix usageYBase.usage 2 = usageYBase.usage ∧
    roundFix usageMBase.usage 2 = usageMBase.usage ∧
    (usageYBase.cost = usageYBase.usage * tariffBase.unit_rate ∧
      usageMBase.cost = usageMBase.usage * tariffBase.unit_rate ∧
      roundFix tariffBase.unit_rate 4 = tariffBase.unit_rate) := by
  have pf1 : roundFix usageYBase.usage 2 = usageYBase.usage := by
    norm_num [usageYBase, sumConsumption, consumpYBase, roundFix]
  have pf2 : roundFix usageMBase.usage 2 = usageMBase.usage := by
    norm_num [usageMBase, sumConsumption, consumpMBase, roundFix]
  exact ⟨pf1, pf2,
    cost_eq_usage_times_rate baseEnv tariffBase usageYBase usageMBase rfl rfl rfl pf1 pf2⟩

/-- C9.  On success the report is the fixed-order concatenation: header,
live usage in whole watts, yesterday's usage, last-30-days usage (each as
2-decimal kWh and 2-decimal pounds), tariff information, and a trailing
`Last Updated:` UTC timestamp line. -/
theorem statusMessage_format (env : Env) (yesterday monthly : UsageCost)
    (tariff : TariffInfo)
    (hy : getYesterdayUsage env = .ok yesterday)
    (hm : getMonthlyUsage env = .ok monthly)
    (ht : getTariffInfo env = .ok tariff) :
    generateStatusMessage env =
      "🔌 *Octopus Energy Status*\n\n" ++
        "*Current Usage:* " ++ jsToFixed (getLiveUsage env) 0 ++ "W\n\n" ++
        "*Yesterday's Usage:*\n" ++
          ("Usage: " ++ formatFixed yesterday.usage 2 ++ " kWh\nCost: £" ++
            formatFixed yesterday.cost 2) ++ "\n\n" ++
        "*Last 30 Days:*\n" ++
          ("Usage: " ++ formatFixed monthly.usage 2 ++ " kWh\nCost: £" ++
            formatFixed monthly.cost 2) ++ "\n\n" ++
        "*Tariff Information:*\n" ++
        "Name: " ++ tariff.name ++ "\n" ++
        "Unit Rate: £" ++ formatFixed tariff.unit_rate 4 ++ "/kWh\n" ++
        "Standing Charge: £" ++ formatFixed tariff.standing_charge 2 ++ "/day\n\n" ++
        "Last Updated: " ++ formatTimestamp env.now := by
  unfold generateStatusMessage
  rw [hy, hm, ht]
  rfl

/-- Witness for C9 on `baseEnv`. -/
theorem statusMessage_format_witness :
    getYesterdayUsage baseEnv = .ok usageYBase ∧
    generateStatusMessage baseEnv =
      "🔌 *Octopus Energy Status*\n\n" ++
        "*Current Usage:* " ++ jsToFixed (getLiveUsage baseEnv) 0 ++ "W\n\n" ++
        "*Yesterday's Usage:*\n" ++
          ("Usage: " ++ formatFixed usageYBase.usage 2 ++ " kWh\nCost: £" ++
            formatFixed usageYBase.cost 2) ++ "\n\n" ++
        "*Last 30 Days:*\n" ++
          ("Usage: " ++ formatFixed usageMBase.usage 2 ++ " kWh\nCost: £" ++
            formatFixed usageMBase.cost 2) ++ "\n\n" ++
        "*Tariff Information:*\n" ++
        "Name: " ++ tariffBase.name ++ "\n" ++
        "Unit Rate: £" ++ formatFixed tariffBase.unit_rate 4 ++ "/kWh\n" ++
        "Standing Charge: £" ++ formatFixed tariffBase.standing_charge 2 ++ "/day\n\n" ++
        "Last Updated: " ++ formatTimestamp baseEnv.now :=
  ⟨rfl, statusMessage_format baseEnv usageYBase usageMBase tariffBase rfl rfl rfl⟩

end Octogram
